import Mathlib

/-!
Shallow embedding of
`azurerm/internal/services/web/resource_arm_app_service_hybrid_connection.go`
(terraform-provider-azurerm).

Go pointers are modelled as `Option`; SDK client calls and helper parsers
that live outside this file are modelled as oracle functions collected in
an `Env` record; the three CRUD operations are translated statement by
statement.  Each operation returns the outcome (success, a provider error,
or a crash from a nil-pointer dereference), the updated resource data, and
the ordered trace of remote calls it issued.
-/

namespace HybridConn

/-- Result of `relay.ParseHybridConnectionID`: a namespace name plus a relay
name. The parser itself is external to this file, so it is an oracle. -/
structure RelayId where
  namespaceName : String
  name : String
  deriving DecidableEq

/-- Result of `azure.ParseAzureResourceID`: the fields the resource reads
from it (`id.ResourceGroup`, `id.Path["sites"]`,
`id.Path["hybridConnectionNamespaces"]`, `id.Path["relays"]`). -/
structure ParsedId where
  resourceGroup : String
  sites : String
  hybridConnectionNamespaces : String
  relays : String
  deriving DecidableEq

/-- Go struct `web.HybridConnectionProperties`: every Go field is a pointer,
hence `Option`. -/
structure HybridConnectionProperties where
  serviceBusNamespace : Option String := none
  relayName : Option String := none
  relayArmURI : Option String := none
  hostname : Option String := none
  port : Option Int := none
  sendKeyName : Option String := none
  sendKeyValue : Option String := none
  serviceBusSuffix : Option String := none
  deriving DecidableEq

/-- Go struct `web.HybridConnection`: `ID *string`, embedded
`*HybridConnectionProperties`, and the embedded `autorest.Response`
(modelled by its HTTP status code, `none` when the response is nil). -/
structure HybridConnection where
  id : Option String := none
  properties : Option HybridConnectionProperties := none
  response : Option Nat := none
  deriving DecidableEq

/-- Go struct `servicebus.AccessKeys`: only the field the resource uses. -/
structure AccessKeys where
  primaryKey : Option String := none
  deriving DecidableEq

/-- Modelled from the spec: `utils.ResponseWasNotFound` and
`response.WasNotFound` (helpers outside this file) report whether the HTTP
response indicates "not found", i.e. carries status code 404. -/
def responseWasNotFound (statusCode : Option Nat) : Bool :=
  statusCode == some 404

/-- The terraform resource data visible to this resource: the schema's
attributes plus the durable identifier and the new-resource flag. -/
structure ResourceData where
  id : String
  appServiceName : String
  resourceGroupName : String
  relayId : String
  hostname : String
  port : Int
  serviceBusNamespace : String
  serviceBusSuffix : String
  sendKeyName : String
  sendKeyValue : String
  namespaceName : String
  relayName : String
  isNew : Bool
  deriving DecidableEq

/-- The distinct error sites of the resource, under the names the spec
gives them. -/
inductive ProviderError where
  /-- Error site "Error parsing relay ID %q: %s". -/
  | invalidReference (relayArmURI : String) (detail : String)
  /-- Error site "Error checking for presence of existing App Service Hybrid Connection ...". -/
  | precheckFailed (detail : String)
  /-- Error site `tf.ImportAsExistsError("azurerm_app_service_hybrid_connection", id)`. -/
  | alreadyExists (id : String)
  /-- Error sites "Error creating ...", "Error making Read request ...",
  "Error deleting ...". -/
  | remoteOperationFailed (detail : String)
  /-- Error from `azure.ParseAzureResourceID`, surfaced unchanged. -/
  | malformedIdentifier (detail : String)
  deriving DecidableEq

/-- How an operation ends: normal return of nil, return of an error, or a
runtime panic (nil-pointer dereference). -/
inductive Outcome where
  | ok
  | fail (e : ProviderError)
  | crash
  deriving DecidableEq

/-- The remote endpoints the resource can call, for the call trace. -/
inductive RemoteCall where
  | getHybridConnection
  | createOrUpdateHybridConnection
  | deleteHybridConnection
  | listKeys
  deriving DecidableEq

/-- Result of one operation: outcome, final resource data, remote calls in
order. -/
structure OpOutput where
  outcome : Outcome
  state : ResourceData
  calls : List RemoteCall
  deriving DecidableEq

/-- The environment of one invocation: parsers and SDK clients external to
the resource file, as oracle functions of their arguments. -/
structure Env where
  /-- Oracle for `relay.ParseHybridConnectionID`. -/
  relayParse : String → Except String RelayId
  /-- Oracle for `azure.ParseAzureResourceID`. -/
  parseResourceID : String → Except String ParsedId
  /-- Flag `features.ShouldResourcesBeImported()`. -/
  shouldResourcesBeImported : Bool
  /-- Oracle for `client.GetHybridConnection ctx rg name namespace relay`. -/
  getHC : String → String → String → String → HybridConnection × Option String
  /-- Oracle for `client.CreateOrUpdateHybridConnection ctx rg name namespace relay envelope`. -/
  createHC : String → String → String → String → HybridConnection → HybridConnection × Option String
  /-- Oracle for `client.DeleteHybridConnection ctx rg name namespace relay`,
  returning the response status code and the error. -/
  deleteHC : String → String → String → String → Option Nat × Option String
  /-- Oracle for `serviceBusNSClient.ListKeys ctx rg namespace keyName`. -/
  listKeys : String → String → String → AccessKeys × Option String

/-- The Go conversion `int32(x)` applied to `d.Get("port").(int)`. -/
def toInt32 (n : Int) : Int :=
  (n + 2 ^ 31) % 2 ^ 32 - 2 ^ 31

/-- The `web.HybridConnection` envelope built by CreateUpdate from the
resource data and the parsed relay reference. -/
def mkEnvelope (d : ResourceData) (relayName relayArmURI : String) : HybridConnection :=
  { properties := some
      { serviceBusNamespace := some d.serviceBusNamespace
        relayName := some relayName
        relayArmURI := some relayArmURI
        hostname := some d.hostname
        port := some (toInt32 d.port)
        sendKeyName := some d.sendKeyName
        sendKeyValue := some d.sendKeyValue
        serviceBusSuffix := some d.serviceBusSuffix } }

/-- The import-safety block of CreateUpdate: when import detection is on
and the resource is newly declared, issues the pre-check get and returns
the error that block would return (`none` when control falls through to the
upsert), together with the calls it made. -/
def importPrecheck (env : Env) (d : ResourceData)
    (resourceGroup name namespaceName relayName : String) :
    Option ProviderError × List RemoteCall :=
  if env.shouldResourcesBeImported && d.isNew then
    let r := env.getHC resourceGroup name namespaceName relayName
    let existing := r.1
    let errStep : Option ProviderError :=
      match r.2 with
      | some e =>
          if !responseWasNotFound existing.response then
            some (.precheckFailed e)
          else
            none
      | none => none
    match errStep with
    | some e => (some e, [.getHybridConnection])
    | none =>
        match existing.id with
        | some i =>
            if i ≠ "" then (some (.alreadyExists i), [.getHybridConnection])
            else (none, [.getHybridConnection])
        | none => (none, [.getHybridConnection])
  else
    (none, [])

/-- Translation of `resourceArmAppServiceHybridConnectionRead`, statement by
statement.  The unconditional dereferences `*resp.ServiceBusNamespace` and
`*resp.SendKeyName` (promoted through the possibly-nil
`HybridConnectionProperties` pointer) become the `crash` branches. -/
def resourceArmAppServiceHybridConnectionRead (env : Env) (d : ResourceData) : OpOutput :=
  match env.parseResourceID d.id with
  | .error e => ⟨.fail (.malformedIdentifier e), d, []⟩
  | .ok pid =>
      let resourceGroup := pid.resourceGroup
      let name := pid.sites
      let namespaceName := pid.hybridConnectionNamespaces
      let relayName := pid.relays
      let r := env.getHC resourceGroup name namespaceName relayName
      let resp := r.1
      match r.2 with
      | some e =>
          if responseWasNotFound resp.response then
            ⟨.ok, { d with id := "" }, [.getHybridConnection]⟩
          else
            ⟨.fail (.remoteOperationFailed e), d, [.getHybridConnection]⟩
      | none =>
          let d1 := { d with
            appServiceName := name
            resourceGroupName := resourceGroup
            namespaceName := namespaceName
            relayName := relayName }
          let d2 :=
            match resp.properties with
            | some props =>
                { d1 with
                  port := (props.port.getD 0)
                  serviceBusNamespace := props.serviceBusNamespace.getD ""
                  sendKeyName := props.sendKeyName.getD ""
                  serviceBusSuffix := props.serviceBusSuffix.getD ""
                  relayId := props.relayArmURI.getD ""
                  hostname := props.hostname.getD "" }
            | none => d1
          match resp.properties with
          | none => ⟨.crash, d2, [.getHybridConnection]⟩
          | some props =>
              match props.serviceBusNamespace, props.sendKeyName with
              | some ns, some keyName =>
                  let kr := env.listKeys resourceGroup ns keyName
                  match kr.2 with
                  | some _ =>
                      ⟨.ok, d2, [.getHybridConnection, .listKeys]⟩
                  | none =>
                      ⟨.ok, { d2 with sendKeyValue := kr.1.primaryKey.getD "" },
                        [.getHybridConnection, .listKeys]⟩
              | _, _ => ⟨.crash, d2, [.getHybridConnection]⟩

/-- Translation of `resourceArmAppServiceHybridConnectionCreateUpdate`,
statement by statement.  The dereference `*hybridConnection.ID` becomes the
`crash` branch. -/
def resourceArmAppServiceHybridConnectionCreateUpdate (env : Env) (d : ResourceData) : OpOutput :=
  let name := d.appServiceName
  let resourceGroup := d.resourceGroupName
  let relayArmURI := d.relayId
  match env.relayParse relayArmURI with
  | .error e => ⟨.fail (.invalidReference relayArmURI e), d, []⟩
  | .ok rid =>
      let namespaceName := rid.namespaceName
      let relayName := rid.name
      let pre := importPrecheck env d resourceGroup name namespaceName relayName
      match pre.1 with
      | some e => ⟨.fail e, d, pre.2⟩
      | none =>
          let envl := mkEnvelope d relayName relayArmURI
          let cr := env.createHC resourceGroup name namespaceName relayName envl
          match cr.2 with
          | some e =>
              ⟨.fail (.remoteOperationFailed e), d,
                pre.2 ++ [.createOrUpdateHybridConnection]⟩
          | none =>
              match cr.1.id with
              | none => ⟨.crash, d, pre.2 ++ [.createOrUpdateHybridConnection]⟩
              | some newId =>
                  let rr := resourceArmAppServiceHybridConnectionRead env { d with id := newId }
                  ⟨rr.outcome, rr.state,
                    pre.2 ++ [.createOrUpdateHybridConnection] ++ rr.calls⟩

/-- Translation of `resourceArmAppServiceHybridConnectionDelete`, statement
by statement.  Note the branch order in the source: on a delete error, a
response that is NOT "not found" returns nil, while a "not found" response
returns the formatted error. -/
def resourceArmAppServiceHybridConnectionDelete (env : Env) (d : ResourceData) : OpOutput :=
  match env.parseResourceID d.id with
  | .error e => ⟨.fail (.malformedIdentifier e), d, []⟩
  | .ok pid =>
      let r := env.deleteHC pid.resourceGroup pid.sites pid.hybridConnectionNamespaces pid.relays
      match r.2 with
      | some e =>
          if !responseWasNotFound r.1 then
            ⟨.ok, d, [.deleteHybridConnection]⟩
          else
            ⟨.fail (.remoteOperationFailed e), d, [.deleteHybridConnection]⟩
      | none => ⟨.ok, d, [.deleteHybridConnection]⟩

/-- The schema validator of `service_bus_namespace` is
`validation.StringMatch` on the anchored regular expression
`[a-zA-Z][-a-zA-Z0-9]{0,100}[a-zA-Z0-9]` (anchored at both ends): after
the leading letter, this matcher consumes up to `budget` characters of the
class `[-a-zA-Z0-9]` and requires the final character to be `[a-zA-Z0-9]`. -/
def matchMiddleTail (budget : Nat) : List Char → Bool
  | [] => false
  | [c] => c.isAlphanum
  | c :: rest => budget != 0 && (c == '-' || c.isAlphanum) && matchMiddleTail (budget - 1) rest

/-- Whether the anchored regular expression
`^[a-zA-Z][-a-zA-Z0-9]{0,100}[a-zA-Z0-9]$` accepts the string: the
`service_bus_namespace` ValidateFunc accepts exactly these values. -/
def serviceBusNamespaceValidateOk (s : String) : Bool :=
  match s.toList with
  | [] => false
  | c :: rest => c.isAlpha && matchMiddleTail 100 rest

/-- Whether the first character of the list exists and is a letter. -/
def headIsAlpha (l : List Char) : Bool :=
  match l.head? with
  | some c => c.isAlpha
  | none => false

/-- Whether the last character of the list exists and is a letter or a
digit. -/
def lastIsAlphanum (l : List Char) : Bool :=
  match l.getLast? with
  | some c => c.isAlphanum
  | none => false

/-- Modelled from the spec: the naming pattern as the spec words it —
starts with a letter, contains only letters, digits and hyphens, ends with
a letter or digit, and has length between 2 and 102. -/
def specNamespacePattern (s : String) : Bool :=
  let l := s.toList
  decide (2 ≤ l.length) && decide (l.length ≤ 102) &&
  headIsAlpha l && lastIsAlphanum l &&
  l.all (fun c => c.isAlpha || c.isDigit || c == '-')

end HybridConn

namespace HybridConn

/-- A concrete resource data used by witnesses. -/
def sampleData : ResourceData :=
  { id := "id0"
    appServiceName := "app1"
    resourceGroupName := "rg1"
    relayId := "relayURI1"
    hostname := "host1"
    port := 8080
    serviceBusNamespace := "ns1"
    serviceBusSuffix := ".servicebus.windows.net"
    sendKeyName := "key1"
    sendKeyValue := "val1"
    namespaceName := ""
    relayName := ""
    isNew := true }

/-- A concrete parsed identifier used by witnesses. -/
def samplePid : ParsedId :=
  { resourceGroup := "rg1"
    sites := "site1"
    hybridConnectionNamespaces := "ns1"
    relays := "relay1" }

/-- A concrete environment used by witnesses: every parse succeeds and
every remote call succeeds. -/
def baseEnv : Env :=
  { relayParse := fun _ => .ok { namespaceName := "ns1", name := "relay1" }
    parseResourceID := fun _ => .ok samplePid
    shouldResourcesBeImported := false
    getHC := fun _ _ _ _ =>
      ({ id := some "remoteid"
         properties := some { serviceBusNamespace := some "ns1", sendKeyName := some "key1" }
         response := some 200 }, none)
    createHC := fun _ _ _ _ _ => ({ id := some "newid" }, none)
    deleteHC := fun _ _ _ _ => (some 200, none)
    listKeys := fun _ _ _ => ({ primaryKey := some "pk1" }, none) }

/-- The Delete error policy exactly as claim C1 states it: a delete call
with no transport error but a "not found" response is fatal, and a delete
call with a transport error is swallowed as success. -/
def deleteClaimAsStated : Prop :=
  ∀ (env : Env) (d : ResourceData) (pid : ParsedId),
    env.parseResourceID d.id = .ok pid →
    (let r := env.deleteHC pid.resourceGroup pid.sites pid.hybridConnectionNamespaces pid.relays
     ((r.2 = none ∧ responseWasNotFound r.1 = true) →
        ∃ e, (resourceArmAppServiceHybridConnectionDelete env d).outcome =
          .fail (.remoteOperationFailed e)) ∧
     (r.2 ≠ none →
        (resourceArmAppServiceHybridConnectionDelete env d).outcome = .ok))

/-- Environment refuting claim C1: the delete call returns a transport
error together with a 404 response. -/
def envC1 : Env :=
  { baseEnv with deleteHC := fun _ _ _ _ => (some 404, some "boom") }

/-- C1 (counterexample): the claim as stated is false.  With a transport
error and a 404 response the code returns the formatted error, not
success, because the source checks `WasNotFound` only inside the
`err != nil` branch and with the branches inverted. -/
theorem C1_counterexample : ¬ deleteClaimAsStated := by
  intro h
  have h2 := (h envC1 sampleData samplePid rfl).2
  have h3 : (resourceArmAppServiceHybridConnectionDelete envC1 sampleData).outcome =
      .fail (.remoteOperationFailed "boom") := by decide
  have h4 := h2 (by decide)
  rw [h3] at h4
  exact Outcome.noConfusion h4

/-- C1 (amended): for every Delete invocation whose identifier parses, if
the delete call returns a transport error and the response indicates "not
found", Delete reports a fatal `RemoteOperationFailed` error with the
error detail; if the delete call returns a transport error and the
response does not indicate "not found", the error is swallowed and Delete
returns success; if the delete call returns no transport error, Delete
returns success. -/
theorem C1_delete_error_policy (env : Env) (d : ResourceData) (pid : ParsedId)
    (sc : Option Nat) (er : Option String)
    (hp : env.parseResourceID d.id = .ok pid)
    (hc : env.deleteHC pid.resourceGroup pid.sites pid.hybridConnectionNamespaces pid.relays
      = (sc, er)) :
    (∀ e, er = some e → responseWasNotFound sc = true →
      resourceArmAppServiceHybridConnectionDelete env d =
        ⟨.fail (.remoteOperationFailed e), d, [.deleteHybridConnection]⟩) ∧
    (∀ e, er = some e → responseWasNotFound sc = false →
      resourceArmAppServiceHybridConnectionDelete env d =
        ⟨.ok, d, [.deleteHybridConnection]⟩) ∧
    (er = none →
      resourceArmAppServiceHybridConnectionDelete env d =
        ⟨.ok, d, [.deleteHybridConnection]⟩) := by
  refine ⟨?_, ?_, ?_⟩
  · intro e he hnf
    subst he
    simp [resourceArmAppServiceHybridConnectionDelete, hp, hc, hnf]
  · intro e he hnf
    subst he
    simp [resourceArmAppServiceHybridConnectionDelete, hp, hc, hnf]
  · intro he
    subst he
    simp [resourceArmAppServiceHybridConnectionDelete, hp, hc]

/-- Witness for C1: the amended policy evaluated in `envC1`, where the
delete call errors with a 404 response, yields the fatal error. -/
theorem C1_witness :
    resourceArmAppServiceHybridConnectionDelete envC1 sampleData =
      ⟨.fail (.remoteOperationFailed "boom"), sampleData, [.deleteHybridConnection]⟩ :=
  (C1_delete_error_policy envC1 sampleData samplePid (some 404) (some "boom")
    rfl rfl).1 "boom" rfl (by decide)

/-- C2: for every Read invocation whose identifier parses, if the get
fails and the response indicates not-found, Read clears the identifier and
returns no error; if the get fails with any other error, Read returns a
fatal error and the state (hence the identifier) is unchanged. -/
theorem C2_read_notfound_clears_id (env : Env) (d : ResourceData) (pid : ParsedId)
    (resp : HybridConnection) (e : String)
    (hp : env.parseResourceID d.id = .ok pid)
    (hg : env.getHC pid.resourceGroup pid.sites pid.hybridConnectionNamespaces pid.relays
      = (resp, some e)) :
    (responseWasNotFound resp.response = true →
      resourceArmAppServiceHybridConnectionRead env d =
        ⟨.ok, { d with id := "" }, [.getHybridConnection]⟩) ∧
    (responseWasNotFound resp.response = false →
      resourceArmAppServiceHybridConnectionRead env d =
        ⟨.fail (.remoteOperationFailed e), d, [.getHybridConnection]⟩) := by
  constructor
  · intro hnf
    simp [resourceArmAppServiceHybridConnectionRead, hp, hg, hnf]
  · intro hnf
    simp [resourceArmAppServiceHybridConnectionRead, hp, hg, hnf]

/-- Environment for the C2 witness: the get fails with a 404 response. -/
def envC2 : Env :=
  { baseEnv with getHC := fun _ _ _ _ => ({ response := some 404 }, some "gone") }

/-- Witness for C2: in `envC2` the not-found branch clears the identifier
and succeeds. -/
theorem C2_witness :
    resourceArmAppServiceHybridConnectionRead envC2 sampleData =
      ⟨.ok, { sampleData with id := "" }, [.getHybridConnection]⟩ :=
  (C2_read_notfound_clears_id envC2 sampleData samplePid
    { response := some 404 } "gone" rfl rfl).1 (by decide)

/-- C9: for every Read or Delete invocation whose persisted identifier
does not parse, the operation fails with the parse error and issues no
remote call. -/
theorem C9_malformed_identifier (env : Env) (d : ResourceData) (e : String)
    (hp : env.parseResourceID d.id = .error e) :
    resourceArmAppServiceHybridConnectionRead env d =
      ⟨.fail (.malformedIdentifier e), d, []⟩ ∧
    resourceArmAppServiceHybridConnectionDelete env d =
      ⟨.fail (.malformedIdentifier e), d, []⟩ := by
  constructor
  · simp [resourceArmAppServiceHybridConnectionRead, hp]
  · simp [resourceArmAppServiceHybridConnectionDelete, hp]

/-- Environment for the C9 witness: identifier parsing fails. -/
def envC9 : Env :=
  { baseEnv with parseResourceID := fun _ => .error "bad id" }

/-- Witness for C9: in `envC9` both Read and Delete fail with the parse
error and no remote call. -/
theorem C9_witness :
    resourceArmAppServiceHybridConnectionRead envC9 sampleData =
      ⟨.fail (.malformedIdentifier "bad id"), sampleData, []⟩ ∧
    resourceArmAppServiceHybridConnectionDelete envC9 sampleData =
      ⟨.fail (.malformedIdentifier "bad id"), sampleData, []⟩ :=
  C9_malformed_identifier envC9 sampleData "bad id" rfl

end HybridConn

namespace HybridConn

/-- C6: for every CreateOrUpdate invocation whose relay reference does not
parse, the operation fails with the invalid-reference error and issues no
remote call. -/
theorem C6_invalid_relay_reference (env : Env) (d : ResourceData) (e : String)
    (hr : env.relayParse d.relayId = .error e) :
    resourceArmAppServiceHybridConnectionCreateUpdate env d =
      ⟨.fail (.invalidReference d.relayId e), d, []⟩ := by
  simp [resourceArmAppServiceHybridConnectionCreateUpdate, hr]

/-- Environment for the C6 witness: relay reference parsing fails. -/
def envC6 : Env :=
  { baseEnv with relayParse := fun _ => .error "not a relay id" }

/-- Witness for C6: in `envC6` CreateOrUpdate fails with the
invalid-reference error and an empty call trace. -/
theorem C6_witness :
    resourceArmAppServiceHybridConnectionCreateUpdate envC6 sampleData =
      ⟨.fail (.invalidReference sampleData.relayId "not a relay id"), sampleData, []⟩ :=
  C6_invalid_relay_reference envC6 sampleData "not a relay id" rfl

/-- C5: on every CreateOrUpdate error path — relay reference fails to
parse, the import pre-check fails, or the remote upsert errors — the
operation returns an error and the resource data (hence the identifier) is
unchanged. -/
theorem C5_id_unchanged_on_error (env : Env) (d : ResourceData)
    (h :
      (∃ e, env.relayParse d.relayId = .error e) ∨
      (∃ rid e, env.relayParse d.relayId = .ok rid ∧
        (importPrecheck env d d.resourceGroupName d.appServiceName
          rid.namespaceName rid.name).1 = some e) ∨
      (∃ rid hc e, env.relayParse d.relayId = .ok rid ∧
        (importPrecheck env d d.resourceGroupName d.appServiceName
          rid.namespaceName rid.name).1 = none ∧
        env.createHC d.resourceGroupName d.appServiceName rid.namespaceName rid.name
          (mkEnvelope d rid.name d.relayId) = (hc, some e))) :
    (∃ e, (resourceArmAppServiceHybridConnectionCreateUpdate env d).outcome = .fail e) ∧
    (resourceArmAppServiceHybridConnectionCreateUpdate env d).state = d := by
  rcases h with ⟨e, hr⟩ | ⟨rid, e, hr, hpre⟩ | ⟨rid, hc, e, hr, hpre, hcr⟩
  · constructor
    · exact ⟨.invalidReference d.relayId e,
        by simp [resourceArmAppServiceHybridConnectionCreateUpdate, hr]⟩
    · simp [resourceArmAppServiceHybridConnectionCreateUpdate, hr]
  · constructor
    · exact ⟨e, by simp [resourceArmAppServiceHybridConnectionCreateUpdate, hr, hpre]⟩
    · simp [resourceArmAppServiceHybridConnectionCreateUpdate, hr, hpre]
  · constructor
    · exact ⟨.remoteOperationFailed e,
        by simp [resourceArmAppServiceHybridConnectionCreateUpdate, hr, hpre, hcr]⟩
    · simp [resourceArmAppServiceHybridConnectionCreateUpdate, hr, hpre, hcr]

/-- Environment for the C5 witness: the upsert call fails. -/
def envC5 : Env :=
  { baseEnv with createHC := fun _ _ _ _ _ => ({ }, some "api down") }

/-- Witness for C5: in `envC5` the upsert fails, CreateOrUpdate returns an
error and the resource data is unchanged. -/
theorem C5_witness :
    (∃ e, (resourceArmAppServiceHybridConnectionCreateUpdate envC5 sampleData).outcome
      = .fail e) ∧
    (resourceArmAppServiceHybridConnectionCreateUpdate envC5 sampleData).state = sampleData :=
  C5_id_unchanged_on_error envC5 sampleData
    (Or.inr (Or.inr ⟨{ namespaceName := "ns1", name := "relay1" }, { }, "api down",
      rfl, rfl, rfl⟩))

/-- C4: for every CreateOrUpdate invocation in which the upsert succeeds
and returns an identifier, the operation stores that identifier as the
durable handle and concludes by invoking Read on the updated data,
returning the outcome and state Read produces. -/
theorem C4_create_concludes_with_read (env : Env) (d : ResourceData) (rid : RelayId)
    (hc : HybridConnection) (newId : String) (preCalls : List RemoteCall)
    (hr : env.relayParse d.relayId = .ok rid)
    (hpre : importPrecheck env d d.resourceGroupName d.appServiceName
      rid.namespaceName rid.name = (none, preCalls))
    (hcr : env.createHC d.resourceGroupName d.appServiceName rid.namespaceName rid.name
      (mkEnvelope d rid.name d.relayId) = (hc, none))
    (hid : hc.id = some newId) :
    resourceArmAppServiceHybridConnectionCreateUpdate env d =
      ⟨(resourceArmAppServiceHybridConnectionRead env { d with id := newId }).outcome,
       (resourceArmAppServiceHybridConnectionRead env { d with id := newId }).state,
       preCalls ++ [.createOrUpdateHybridConnection]
         ++ (resourceArmAppServiceHybridConnectionRead env { d with id := newId }).calls⟩ := by
  simp [resourceArmAppServiceHybridConnectionCreateUpdate, hr, hpre, hcr, hid]

/-- Witness for C4: in `baseEnv` the upsert returns identifier "newid" and
CreateOrUpdate returns the result of Read on the data with that id. -/
theorem C4_witness :
    resourceArmAppServiceHybridConnectionCreateUpdate baseEnv sampleData =
      ⟨(resourceArmAppServiceHybridConnectionRead baseEnv
          { sampleData with id := "newid" }).outcome,
       (resourceArmAppServiceHybridConnectionRead baseEnv
          { sampleData with id := "newid" }).state,
       [] ++ [.createOrUpdateHybridConnection]
         ++ (resourceArmAppServiceHybridConnectionRead baseEnv
              { sampleData with id := "newid" }).calls⟩ :=
  C4_create_concludes_with_read baseEnv sampleData
    { namespaceName := "ns1", name := "relay1" } { id := some "newid" } "newid" []
    rfl rfl rfl rfl

end HybridConn

namespace HybridConn

/-- C7: for every CreateOrUpdate invocation on a newly-declared resource
with import detection enabled, the pre-check get is decisive: a
successfully found remote object with a non-empty identifier fails the
operation with the already-exists error naming that identifier; a
pre-check error whose response is not "not found" fails the operation with
the pre-check error; a "not found" pre-check (error with a 404 response
and no existing identifier) lets the upsert proceed. -/
theorem C7_import_precheck (env : Env) (d : ResourceData) (rid : RelayId)
    (existing : HybridConnection) (er : Option String)
    (himp : env.shouldResourcesBeImported = true)
    (hnew : d.isNew = true)
    (hr : env.relayParse d.relayId = .ok rid)
    (hg : env.getHC d.resourceGroupName d.appServiceName rid.namespaceName rid.name
      = (existing, er)) :
    (∀ i, er = none → existing.id = some i → i ≠ "" →
      resourceArmAppServiceHybridConnectionCreateUpdate env d =
        ⟨.fail (.alreadyExists i), d, [.getHybridConnection]⟩) ∧
    (∀ e, er = some e → responseWasNotFound existing.response = false →
      resourceArmAppServiceHybridConnectionCreateUpdate env d =
        ⟨.fail (.precheckFailed e), d, [.getHybridConnection]⟩) ∧
    (∀ e, er = some e → responseWasNotFound existing.response = true →
      (existing.id = none ∨ existing.id = some "") →
      RemoteCall.createOrUpdateHybridConnection ∈
        (resourceArmAppServiceHybridConnectionCreateUpdate env d).calls) := by
  refine ⟨?_, ?_, ?_⟩
  · intro i he hid hne
    subst he
    simp [resourceArmAppServiceHybridConnectionCreateUpdate, importPrecheck,
      himp, hnew, hr, hg, hid, hne]
  · intro e he hnf
    subst he
    simp [resourceArmAppServiceHybridConnectionCreateUpdate, importPrecheck,
      himp, hnew, hr, hg, hnf]
  · intro e he hnf hid
    subst he
    have hpre : importPrecheck env d d.resourceGroupName d.appServiceName
        rid.namespaceName rid.name = (none, [.getHybridConnection]) := by
      rcases hid with hid | hid <;>
        simp [importPrecheck, himp, hnew, hg, hnf, hid]
    rcases hcr : env.createHC d.resourceGroupName d.appServiceName rid.namespaceName rid.name
        (mkEnvelope d rid.name d.relayId) with ⟨hc, er2⟩
    cases er2 with
    | some e2 =>
        simp [resourceArmAppServiceHybridConnectionCreateUpdate, hr, hpre, hcr]
    | none =>
        cases hcid : hc.id with
        | none =>
            simp [resourceArmAppServiceHybridConnectionCreateUpdate, hr, hpre, hcr, hcid]
        | some newId =>
            simp [resourceArmAppServiceHybridConnectionCreateUpdate, hr, hpre, hcr, hcid]

/-- Environment for the C7 witness: import detection on, and the pre-check
get finds an existing remote object. -/
def envC7 : Env :=
  { baseEnv with
    shouldResourcesBeImported := true
    getHC := fun _ _ _ _ => ({ id := some "conflict", response := some 200 }, none) }

/-- Witness for C7: in `envC7` CreateOrUpdate fails with the
already-exists error naming the conflicting identifier. -/
theorem C7_witness :
    resourceArmAppServiceHybridConnectionCreateUpdate envC7 sampleData =
      ⟨.fail (.alreadyExists "conflict"), sampleData, [.getHybridConnection]⟩ :=
  (C7_import_precheck envC7 sampleData { namespaceName := "ns1", name := "relay1" }
    { id := some "conflict", response := some 200 } none
    rfl rfl rfl rfl).1 "conflict" rfl rfl (by decide)

/-- C3: for every Read invocation whose primary get succeeds with non-nil
properties, namespace and key name, the credential-listing call is
non-fatal: if it errors, Read still returns success and leaves
send_key_value unchanged; if it succeeds, send_key_value is set to the
returned primary key. -/
theorem C3_read_listkeys_nonfatal (env : Env) (d : ResourceData) (pid : ParsedId)
    (resp : HybridConnection) (props : HybridConnectionProperties) (ns keyName : String)
    (hp : env.parseResourceID d.id = .ok pid)
    (hg : env.getHC pid.resourceGroup pid.sites pid.hybridConnectionNamespaces pid.relays
      = (resp, none))
    (hprops : resp.properties = some props)
    (hns : props.serviceBusNamespace = some ns)
    (hkn : props.sendKeyName = some keyName) :
    (∀ ak e, env.listKeys pid.resourceGroup ns keyName = (ak, some e) →
      (resourceArmAppServiceHybridConnectionRead env d).outcome = .ok ∧
      (resourceArmAppServiceHybridConnectionRead env d).state.sendKeyValue
        = d.sendKeyValue) ∧
    (∀ ak, env.listKeys pid.resourceGroup ns keyName = (ak, none) →
      (resourceArmAppServiceHybridConnectionRead env d).outcome = .ok ∧
      (resourceArmAppServiceHybridConnectionRead env d).state.sendKeyValue
        = ak.primaryKey.getD "") := by
  constructor
  · intro ak e hlk
    constructor <;>
      simp [resourceArmAppServiceHybridConnectionRead, hp, hg, hprops, hns, hkn, hlk]
  · intro ak hlk
    constructor <;>
      simp [resourceArmAppServiceHybridConnectionRead, hp, hg, hprops, hns, hkn, hlk]

/-- Environment for the C3 witness: the credential-listing call fails. -/
def envC3 : Env :=
  { baseEnv with listKeys := fun _ _ _ => ({ }, some "listkeys down") }

/-- Witness for C3: in `envC3` the ListKeys failure is non-fatal — Read
succeeds and send_key_value keeps its previous value. -/
theorem C3_witness :
    (resourceArmAppServiceHybridConnectionRead envC3 sampleData).outcome = .ok ∧
    (resourceArmAppServiceHybridConnectionRead envC3 sampleData).state.sendKeyValue
      = sampleData.sendKeyValue :=
  (C3_read_listkeys_nonfatal envC3 sampleData samplePid
    { id := some "remoteid"
      properties := some { serviceBusNamespace := some "ns1", sendKeyName := some "key1" }
      response := some 200 }
    { serviceBusNamespace := some "ns1", sendKeyName := some "key1" } "ns1" "key1"
    rfl rfl rfl rfl rfl).1 { } "listkeys down" rfl

/-- Environment exhibiting the C10 crash with nil properties: the get
succeeds but the returned object has a nil properties pointer. -/
def envC10 : Env :=
  { baseEnv with getHC := fun _ _ _ _ =>
      ({ id := some "remoteid", properties := none, response := some 200 }, none) }

/-- Environment exhibiting the C10 crash with non-nil properties but a nil
send-key-name pointer. -/
def envC10b : Env :=
  { baseEnv with getHC := fun _ _ _ _ =>
      ({ id := some "remoteid"
         properties := some { serviceBusNamespace := some "ns1", sendKeyName := none }
         response := some 200 }, none) }

/-- C10: there are successful get responses — one with nil properties, one
with non-nil properties but a nil send-key-name — on which Read crashes
with a nil-pointer dereference instead of returning an error, because
`*resp.ServiceBusNamespace` and `*resp.SendKeyName` are dereferenced
unconditionally when invoking the credential-listing call. -/
theorem C10_read_nil_deref_crash :
    ((envC10.getHC samplePid.resourceGroup samplePid.sites
        samplePid.hybridConnectionNamespaces samplePid.relays).2 = none ∧
      (resourceArmAppServiceHybridConnectionRead envC10 sampleData).outcome = .crash) ∧
    ((envC10b.getHC samplePid.resourceGroup samplePid.sites
        samplePid.hybridConnectionNamespaces samplePid.relays).2 = none ∧
      (resourceArmAppServiceHybridConnectionRead envC10b sampleData).outcome = .crash) := by
  refine ⟨⟨rfl, ?_⟩, ⟨rfl, ?_⟩⟩ <;> decide

end HybridConn

namespace HybridConn

/-- The character class of the middle of the regular expression,
`[-a-zA-Z0-9]`, coincides with the spec wording "letters, digits and
hyphens". -/
theorem classChar_eq (c : Char) :
    (c == '-' || c.isAlphanum) = (c.isAlpha || c.isDigit || c == '-') := by
  cases h1 : (c == '-') <;> cases h2 : c.isAlpha <;> cases h3 : c.isDigit <;>
    simp [Char.isAlphanum, h1, h2, h3]

/-- The last character is unchanged by a cons in front of a nonempty
list. -/
theorem lastIsAlphanum_cons_cons (c c2 : Char) (l : List Char) :
    lastIsAlphanum (c :: c2 :: l) = lastIsAlphanum (c2 :: l) := by
  simp [lastIsAlphanum, List.getLast?_cons_cons]

/-- On a singleton the last-character test is the test on that
character. -/
theorem lastIsAlphanum_singleton (c : Char) :
    lastIsAlphanum [c] = c.isAlphanum := by
  simp [lastIsAlphanum]

/-- Characterization of the middle-and-final part of the regular
expression matcher: it accepts exactly the nonempty lists of at most
`budget + 1` characters whose leading characters are in `[-a-zA-Z0-9]` and
whose final character is a letter or a digit. -/
theorem matchMiddleTail_iff (l : List Char) : ∀ budget : Nat,
    matchMiddleTail budget l = true ↔
      (1 ≤ l.length ∧ l.length ≤ budget + 1 ∧
       (∀ c ∈ l.dropLast, (c == '-' || c.isAlphanum) = true) ∧
       lastIsAlphanum l = true) := by
  induction l with
  | nil => intro budget; simp [matchMiddleTail]
  | cons c rest ih =>
    intro budget
    cases rest with
    | nil =>
        simp [matchMiddleTail, lastIsAlphanum_singleton]
    | cons c2 rest2 =>
        cases budget with
        | zero =>
            constructor
            · intro h
              simp [matchMiddleTail] at h
            · rintro ⟨-, h2, -, -⟩
              exfalso
              rw [List.length_cons, List.length_cons] at h2
              omega
        | succ b =>
            rw [List.dropLast_cons₂, lastIsAlphanum_cons_cons]
            simp [matchMiddleTail, ih b, List.length_cons]
            tauto

/-- Conjoined with the final-character condition, checking the middle
class on all but the last character is the same as checking the spec class
on every character. -/
theorem all_eq_dropLast_last (l : List Char) :
    (l.dropLast.all (fun c => c == '-' || c.isAlphanum) && lastIsAlphanum l) =
      (l.all (fun c => c.isAlpha || c.isDigit || c == '-') && lastIsAlphanum l) := by
  induction l with
  | nil => simp [lastIsAlphanum]
  | cons c rest ih =>
    cases rest with
    | nil =>
        simp [lastIsAlphanum_singleton]
        cases h2 : c.isAlpha <;> cases h3 : c.isDigit <;> cases h4 : (c == '-') <;>
          simp [Char.isAlphanum, h2, h3, h4]
    | cons c2 rest2 =>
        rw [List.dropLast_cons₂, lastIsAlphanum_cons_cons, List.all_cons, List.all_cons]
        rw [Bool.and_assoc, Bool.and_assoc, ih, classChar_eq]

/-- C8: a string is accepted by the `service_bus_namespace` schema
validator exactly when it satisfies the naming pattern the spec states:
the string starts with a letter, contains only letters, digits and
hyphens, ends with a letter or digit, and has length between 2 and 102. -/
theorem C8_namespace_validation_pattern (s : String) :
    serviceBusNamespaceValidateOk s = true ↔ specNamespacePattern s = true := by
  unfold serviceBusNamespaceValidateOk specNamespacePattern
  cases hl : s.toList with
  | nil => simp [headIsAlpha, lastIsAlphanum]
  | cons c rest =>
    cases rest with
    | nil => simp [matchMiddleTail, headIsAlpha]
    | cons c2 rest2 =>
      rw [Bool.and_eq_true, matchMiddleTail_iff]
      have hdl : ((c2 :: rest2).dropLast.all (fun x => x == '-' || x.isAlphanum) = true ∧
          lastIsAlphanum (c2 :: rest2) = true) ↔
          ((c2 :: rest2).all (fun x => x.isAlpha || x.isDigit || x == '-') = true ∧
          lastIsAlphanum (c2 :: rest2) = true) := by
        rw [← Bool.and_eq_true, ← Bool.and_eq_true, all_eq_dropLast_last]
      simp only [Bool.and_eq_true, decide_eq_true_eq, headIsAlpha, List.head?_cons,
        lastIsAlphanum_cons_cons, List.all_cons, List.length_cons, List.all_eq_true] at hdl ⊢
      constructor
      · rintro ⟨ha, h1, h2, h3, h4⟩
        have hb := hdl.1 ⟨h3, h4⟩
        exact ⟨⟨⟨⟨by omega, by omega⟩, ha⟩, h4⟩, by simp [ha], hb.1.1, hb.1.2⟩
      · rintro ⟨⟨⟨⟨h1, h2⟩, ha⟩, h4⟩, hc3, hc32, hall⟩
        have hb := hdl.2 ⟨⟨hc32, hall⟩, h4⟩
        exact ⟨ha, by omega, by omega, hb.1, hb.2⟩

end HybridConn
